import Mathlib

/-!
Shallow embedding of the review-management front end: the sidebar's
subscription/trial status derivation (src/components/sidebar.tsx,
checkUserStatus), the dashboard's access guard and review aggregation
(src/components/business/dashboard/page.tsx), and the navigation
renderer's disabling logic.  Timestamps are modelled as integer
milliseconds since epoch; JavaScript numbers that can become NaN are
modelled as Option values, and code paths that can throw are modelled
with Except.
-/

/-- Trial-status record held by the sidebar (the trialInfo useState). -/
structure TrialInfo where
  daysLeft : Int
  isTrial : Bool
  trialEnded : Bool
  hasSubscription : Bool
deriving DecidableEq, Repr

/-- Subscription record held by the sidebar (the subscription useState);
endDate is an instant in milliseconds or null. -/
structure SubscriptionInfo where
  planName : String
  daysLeft : Int
  endDate : Option Int
  isActive : Bool
deriving DecidableEq, Repr

/-- The sidebar's derived access state: both useState cells together. -/
structure SidebarState where
  trialInfo : TrialInfo
  subscription : SubscriptionInfo
deriving DecidableEq, Repr

/-- Initial values of the two useState cells in the sidebar component. -/
def initialSidebarState : SidebarState :=
  { trialInfo := { daysLeft := 0, isTrial := false, trialEnded := false, hasSubscription := false }
    subscription := { planName := "", daysLeft := 0, endDate := none, isActive := false } }

/-- A timestamp field of the stored user document, as the code can see it:
absent (undefined), a store timestamp exposing a callable toDate (carrying
the instant in milliseconds), a raw record exposing only a numeric seconds
field, or a truthy object whose toDate member is not callable (calling it
throws). -/
inductive TSField where
  | absent
  | toDateMs (ms : Int)
  | rawSeconds (s : Int)
  | badToDate
deriving DecidableEq, Repr

/-- The fields of the stored user document that the status logic reads. -/
structure UserData where
  subscriptionActive : Bool
  trialEndDate : TSField
  subscriptionEndDate : TSField
  subscriptionPlan : String
deriving DecidableEq, Repr

/-- Day count used by the sidebar: Math.ceil of the millisecond difference
divided by 1000*60*60*24.  With Int division flooring, the ceiling of
d / 86400000 is -((-d) / 86400000). -/
def dayCeil (d : Int) : Int := -((-d) / 86400000)

/-- The sidebar's timestamp decoding (sidebar.tsx lines 56-70): prefer a
truthy toDate member and call it; otherwise use a truthy seconds field
times 1000 (a seconds value of 0 is falsy and leaves the date null);
a truthy non-callable toDate member throws. -/
def parseTS : TSField → Except Unit (Option Int)
  | .absent => .ok none
  | .toDateMs ms => .ok (some ms)
  | .rawSeconds s => .ok (if s = 0 then none else some (s * 1000))
  | .badToDate => .error ()

/-- The subscription record the sidebar stores when there is no active
subscription. -/
def emptySubscription : SubscriptionInfo :=
  { planName := "", daysLeft := 0, endDate := none, isActive := false }

/-- The state stored when neither an active subscription nor an unexpired
trial is found (sidebar.tsx lines 117-130). -/
def noAccessState : SidebarState :=
  { trialInfo := { daysLeft := 0, isTrial := false, trialEnded := true, hasSubscription := false }
    subscription := emptySubscription }

/-- The branch structure of sidebar.tsx lines 76-130, after the timestamp
fields have been decoded: active subscription with a non-null end date
first, then an unexpired trial, then the trial-ended state. -/
def deriveStatus (trialEnd subEnd : Option Int) (subActive : Bool)
    (planName : String) (nowMs : Int) : SidebarState :=
  match subActive, subEnd with
  | true, some subEndMs =>
      { trialInfo := { daysLeft := 0, isTrial := false, trialEnded := false, hasSubscription := true }
        subscription := { planName := planName, daysLeft := dayCeil (subEndMs - nowMs),
                          endDate := some subEndMs, isActive := true } }
  | _, _ =>
      match trialEnd with
      | some trialEndMs =>
          if nowMs < trialEndMs then
            { trialInfo := { daysLeft := dayCeil (trialEndMs - nowMs), isTrial := true,
                             trialEnded := false, hasSubscription := false }
              subscription := emptySubscription }
          else noAccessState
      | none => noAccessState

/-- checkUserStatus of sidebar.tsx lines 42-134 as a state transformer:
the fetch outcome is a parameter (error = the awaited getDoc rejected,
ok none = the document does not exist, ok (some d) = its data).  The whole
body is wrapped in try/catch whose handler only logs, and both timestamp
decodings happen before the first state update, so every failure leaves
the stored state untouched; a missing document only logs and returns. -/
def checkUserStatus (fetched : Except Unit (Option UserData)) (nowMs : Int)
    (st : SidebarState) : SidebarState :=
  match fetched with
  | .error _ => st
  | .ok none => st
  | .ok (some d) =>
      match parseTS d.trialEndDate, parseTS d.subscriptionEndDate with
      | .ok trialEnd, .ok subEnd =>
          deriveStatus trialEnd subEnd d.subscriptionActive d.subscriptionPlan nowMs
      | _, _ => st

/-- checkSubscription of dashboard/page.tsx lines 49-66: a missing document
yields false; a truthy subscriptionActive yields true immediately; otherwise
a truthy trialEndDate has toDate called on it unconditionally (no seconds
fallback here), so a raw-seconds record or a bad toDate member throws. -/
def checkSubscription (fetched : Option UserData) (nowMs : Int) : Except Unit Bool :=
  match fetched with
  | none => .ok false
  | some d =>
      if d.subscriptionActive then .ok true
      else
        match d.trialEndDate with
        | .absent => .ok false
        | .toDateMs ms => .ok (decide (nowMs < ms))
        | .rawSeconds _ => .error ()
        | .badToDate => .error ()

/-- The navigation the access guard issues (dashboard/page.tsx lines 68-79):
navigate to the pricing page exactly when checkSubscription resolves to
false; a rejected checkSubscription leaves the callback without navigating. -/
def guardNavigation (fetched : Option UserData) (nowMs : Int) : Option String :=
  match checkSubscription fetched nowMs with
  | .ok false => some "/pricing"
  | _ => none

/-- The navigation the dashboard data loader issues for its fetch outcome
(dashboard/page.tsx lines 100-183, the missing-document branch at lines
107-110): a document that does not exist redirects to the login page; a
thrown fetch is caught and only logged. -/
def dashboardLoadNavigation (fetched : Except Unit (Option UserData)) : Option String :=
  match fetched with
  | .ok none => some "/login"
  | _ => none

/-- A raw review document from the store, with every field the dashboard
reads possibly absent.  Ratings and creation seconds are integers when
present; the creation field models createdAt.seconds. -/
structure RawReview where
  rating : Option Int
  createdAt : Option Int
  name : Option String
  review : Option String
  message : Option String
  status : Option String
  branchname : Option String
  replied : Option Bool
deriving DecidableEq, Repr

/-- A normalized review as pushed into reviewsData
(dashboard/page.tsx lines 138-147). -/
structure Review where
  name : String
  rating : Int
  review : String
  createdAtSeconds : Int
  status : String
  branchname : String
  replied : Bool
deriving DecidableEq, Repr

/-- JavaScript string defaulting with the or-operator: an absent or empty
(falsy) string falls through to the default. -/
def jsOrStr (s : Option String) (dflt : String) : String :=
  match s with
  | none => dflt
  | some v => if v = "" then dflt else v

/-- Normalization of a raw review document (dashboard/page.tsx lines
133-147): name defaults to Anonymous, rating to 0, the body falls back to
the message field then to the empty string, createdAt.seconds to 0, status
to pending, branchname to the empty string, replied to false. -/
def normalizeReview (r : RawReview) : Review :=
  { name := jsOrStr r.name "Anonymous"
    rating := r.rating.getD 0
    review := jsOrStr r.review (jsOrStr r.message "")
    createdAtSeconds := r.createdAt.getD 0
    status := jsOrStr r.status "pending"
    branchname := jsOrStr r.branchname ""
    replied := r.replied.getD false }

/-- One step of the running sum totalRating += data.rating
(dashboard/page.tsx line 150), which adds the raw rating field: adding an
undefined rating makes the accumulator NaN, modelled as none, and NaN is
absorbing. -/
def addRating (acc : Option Int) (r : Option Int) : Option Int :=
  match acc, r with
  | some a, some v => some (a + v)
  | _, _ => none

/-- The totalRating accumulator over all fetched review documents. -/
def totalRating (l : List RawReview) : Option Int :=
  l.foldl (fun acc r => addRating acc r.rating) (some 0)

/-- Rounding to one decimal as toFixed(1) does on the exact value: round
half away toward positive infinity at the first decimal. -/
def round1 (q : ℚ) : ℚ := (round (q * 10) : ℤ) / 10

/-- averageRating (dashboard/page.tsx lines 156-158): 0 when there are no
reviews, otherwise the total divided by the count rounded to one decimal;
a NaN total gives a NaN average, modelled as none. -/
def averageRating (l : List RawReview) : Option ℚ :=
  if l.length = 0 then some 0
  else
    match totalRating l with
    | none => none
    | some s => some (round1 ((s : ℚ) / (l.length : ℚ)))

/-- Modelled from the spec text of the aggregator: every missing or
malformed rating contributes the default 0 to the sum, and the average is
the sum over the count rounded to one decimal (0 on an empty sequence). -/
def specAverageRating (l : List RawReview) : ℚ :=
  if l.length = 0 then 0
  else round1 ((((l.map (fun r => r.rating.getD 0)).sum : Int) : ℚ) / (l.length : ℚ))

/-- The bucket test of dashboard/page.tsx line 151 on a rating field:
data.rating >= 1 && data.rating <= 5, false when the rating is undefined. -/
def ratingOK : Option Int → Bool
  | some v => decide (1 ≤ v ∧ v ≤ 5)
  | none => false

/-- The bucket test applied to a raw review document. -/
def inBucket (r : RawReview) : Bool :=
  ratingOK r.rating

/-- One step of the bucket tally (dashboard/page.tsx lines 151-153):
for a rating in [1,5], increment the array cell at index 5 - rating. -/
def bump (c : List Nat) (rating : Option Int) : List Nat :=
  match rating with
  | some v =>
      if 1 ≤ v ∧ v ≤ 5 then
        c.set (5 - v).toNat (c.getD (5 - v).toNat 0 + 1)
      else c
  | none => c

/-- The ratingCounts array built over the fetched documents, starting from
[0,0,0,0,0] ordered 5-star down to 1-star. -/
def ratingCounts (l : List RawReview) : List Nat :=
  l.foldl (fun c r => bump c r.rating) [0, 0, 0, 0, 0]

/-- calculatePercentage (dashboard/page.tsx lines 193-197) with the total
passed explicitly: Math.round of count/total*100 guarded by total > 0. -/
def calculatePercentage (count totalReviews : Nat) : Int :=
  if 0 < totalReviews then round (((count : ℚ) / (totalReviews : ℚ)) * 100) else 0

/-- The sort key relation of dashboard/page.tsx lines 160-164: the
comparator b.createdAt.seconds - a.createdAt.seconds orders reviews by
descending creation seconds. -/
def byRecency : Review → Review → Prop :=
  fun a b => b.createdAtSeconds ≤ a.createdAtSeconds

instance : DecidableRel byRecency :=
  fun a b => inferInstanceAs (Decidable (b.createdAtSeconds ≤ a.createdAtSeconds))

instance : IsTotal Review byRecency :=
  ⟨fun a b => le_total b.createdAtSeconds a.createdAtSeconds⟩

instance : IsTrans Review byRecency :=
  ⟨fun _ _ _ hab hbc => le_trans hbc hab⟩

/-- The sorted review list handed to setReviews: sorting by descending
creation seconds (ties in unspecified order, here via insertion sort). -/
def sortReviews (l : List Review) : List Review :=
  List.insertionSort byRecency l

/-- A sub-entry of the Settings navigation entry. -/
structure SubLink where
  name : String
  href : String
deriving DecidableEq, Repr

/-- A top-level navigation entry of the sidebar. -/
structure NavLink where
  name : String
  href : String
  subLinks : List SubLink
deriving DecidableEq, Repr

/-- The businessLinks menu tree of sidebar.tsx lines 151-165. -/
def businessLinks : List NavLink :=
  [ { name := "Dashboard", href := "/components/business/dashboard", subLinks := [] },
    { name := "Reviews", href := "/components/business/reviews", subLinks := [] },
    { name := "Review Link", href := "/components/business/review-link", subLinks := [] },
    { name := "Settings", href := "/components/business/settings",
      subLinks :=
        [ { name := "Account", href := "/components/business/settings/account" },
          { name := "Locations", href := "/components/business/settings/location" },
          { name := "Business Users", href := "/components/business/settings/businessusers" } ] } ]

/-- The disabling rule of sidebar.tsx line 204: an entry is disabled when
the trial has ended, there is no active subscription, and the entry is not
Settings. -/
def isDisabled (ti : TrialInfo) (sub : SubscriptionInfo) (l : NavLink) : Bool :=
  ti.trialEnded && !sub.isActive && decide (l.name ≠ "Settings")

/-- Clicking a top-level entry (sidebar.tsx lines 209-232): a disabled
entry points at the fragment target and its click handler calls
preventDefault, so no navigation happens; an enabled entry navigates to
its href. -/
def linkClickNav (ti : TrialInfo) (sub : SubscriptionInfo) (l : NavLink) : Option String :=
  if isDisabled ti sub l then none else some l.href

/-- Clicking a Settings sub-entry (sidebar.tsx lines 263-286): sub-entries
are plain links with no disabling condition, so they always navigate. -/
def subLinkClickNav (s : SubLink) : Option String :=
  some s.href

/-- A review document whose rating field is absent. -/
def missingRatingReview : RawReview :=
  { rating := none, createdAt := none, name := none, review := none,
    message := none, status := none, branchname := none, replied := none }

/-- A review document carrying only a rating. -/
def ratedReview (v : Int) : RawReview :=
  { rating := some v, createdAt := none, name := none, review := none,
    message := none, status := none, branchname := none, replied := none }

/-- The rating sequence 5, 4, 4 from the testable-properties section. -/
def demoRatings544 : List RawReview :=
  [ratedReview 5, ratedReview 4, ratedReview 4]

/-- A normalized review carrying only a creation timestamp. -/
def reviewAt (s : Int) : Review :=
  { name := "", rating := 0, review := "", createdAtSeconds := s,
    status := "", branchname := "", replied := false }

/-- A user document with subscriptionActive set but no end-date and no
trial timestamp stored. -/
def noEndDateUser : UserData :=
  { subscriptionActive := true, trialEndDate := .absent,
    subscriptionEndDate := .absent, subscriptionPlan := "" }

/-- The sidebar rounding is the exact ceiling of the millisecond
difference over one day of milliseconds. -/
theorem dayCeil_eq_ceil (d : Int) : dayCeil d = ⌈(d : ℚ) / 86400000⌉ := by
  have h1 : ((d : ℚ) / 86400000) = -((((-d : Int) : ℚ)) / (((86400000 : Nat)) : ℚ)) := by
    push_cast
    ring
  rw [dayCeil, h1, Int.ceil_neg, Rat.floor_intCast_div_natCast]
  norm_num

/-- Branch equation: an active subscription with a stored end date wins. -/
theorem deriveStatus_sub (trialEnd : Option Int) (e : Int) (pl : String) (now : Int) :
    deriveStatus trialEnd (some e) true pl now =
      { trialInfo := ⟨0, false, false, true⟩
        subscription := ⟨pl, dayCeil (e - now), some e, true⟩ } := rfl

/-- Branch equation: with no active subscription end date, an unexpired
trial produces the trial state. -/
theorem deriveStatus_trial (se : Option Int) (sa : Bool) (t : Int) (pl : String) (now : Int)
    (h1 : ¬(sa = true ∧ se.isSome = true)) (h2 : now < t) :
    deriveStatus (some t) se sa pl now =
      { trialInfo := ⟨dayCeil (t - now), true, false, false⟩
        subscription := emptySubscription } := by
  cases sa with
  | true =>
    cases se with
    | some e => exact absurd ⟨rfl, rfl⟩ h1
    | none => simp [deriveStatus, h2]
  | false => cases se <;> simp [deriveStatus, h2]

/-- Branch equation: with neither an active subscription end date nor an
unexpired trial, the trial-ended state results. -/
theorem deriveStatus_ended (te se : Option Int) (sa : Bool) (pl : String) (now : Int)
    (h1 : ¬(sa = true ∧ se.isSome = true))
    (h2 : te = none ∨ ∃ t, te = some t ∧ t ≤ now) :
    deriveStatus te se sa pl now = noAccessState := by
  rcases h2 with rfl | ⟨t, rfl, ht⟩
  · cases sa with
    | true =>
      cases se with
      | some e => exact absurd ⟨rfl, rfl⟩ h1
      | none => rfl
    | false => cases se <;> rfl
  · cases sa with
    | true =>
      cases se with
      | some e => exact absurd ⟨rfl, rfl⟩ h1
      | none => simp [deriveStatus, not_lt.mpr ht]
    | false => cases se <;> simp [deriveStatus, not_lt.mpr ht]

/-- C1: the Status Deriver follows the exact precedence: an active
subscription with a stored end date yields the subscription state with
daysLeft the ceiling of the millisecond difference over 86400000, carrying
the plan name, with all trial fields cleared; otherwise an unexpired trial
yields the trial state with the same ceiling count; otherwise the
trial-ended state with daysLeft 0.  A subscription end 36 hours out gives
daysLeft 2 and a trial end 12 hours out gives daysLeft 1. -/
theorem statusDeriver_exact_precedence (pl : String) (now : Int) :
    (∀ d : Int, dayCeil d = ⌈(d : ℚ) / 86400000⌉) ∧
    (∀ te : Option Int, ∀ e : Int,
      deriveStatus te (some e) true pl now =
        { trialInfo := ⟨0, false, false, true⟩
          subscription := ⟨pl, dayCeil (e - now), some e, true⟩ }) ∧
    (∀ se : Option Int, ∀ sa : Bool, ∀ t : Int,
      ¬(sa = true ∧ se.isSome = true) → now < t →
      deriveStatus (some t) se sa pl now =
        { trialInfo := ⟨dayCeil (t - now), true, false, false⟩
          subscription := emptySubscription }) ∧
    (∀ te se : Option Int, ∀ sa : Bool,
      ¬(sa = true ∧ se.isSome = true) →
      (te = none ∨ ∃ t, te = some t ∧ t ≤ now) →
      deriveStatus te se sa pl now = noAccessState) ∧
    (deriveStatus none (some (now + 129600000)) true pl now).subscription.daysLeft = 2 ∧
    (deriveStatus (some (now + 43200000)) none false pl now).trialInfo.daysLeft = 1 ∧
    (deriveStatus (some (now + 43200000)) none false pl now).trialInfo.isTrial = true := by
  refine ⟨dayCeil_eq_ceil,
    fun te e => deriveStatus_sub te e pl now,
    fun se sa t h1 h2 => deriveStatus_trial se sa t pl now h1 h2,
    fun te se sa h1 h2 => deriveStatus_ended te se sa pl now h1 h2, ?_, ?_, ?_⟩
  · rw [deriveStatus_sub]
    show dayCeil (now + 129600000 - now) = 2
    have h : now + 129600000 - now = 129600000 := by ring
    rw [h]
    decide
  · rw [deriveStatus_trial none false (now + 43200000) pl now (by simp) (by omega)]
    show dayCeil (now + 43200000 - now) = 1
    have h : now + 43200000 - now = 43200000 := by ring
    rw [h]
    decide
  · rw [deriveStatus_trial none false (now + 43200000) pl now (by simp) (by omega)]

/-- Witness for C1: the trial branch at a concrete 12-hour horizon. -/
theorem statusDeriver_exact_precedence_witness :
    deriveStatus (some 43200000) none false "Pro" 0 =
      { trialInfo := ⟨dayCeil (43200000 - 0), true, false, false⟩
        subscription := emptySubscription } :=
  (statusDeriver_exact_precedence "Pro" 0).2.2.1 none false 43200000 (by simp) (by decide)

/-- The running rating sum with every rating present equals the plain sum
of the defaulted ratings, for any starting accumulator. -/
theorem foldl_addRating_present (l : List RawReview) : ∀ a : Int,
    (∀ r ∈ l, (r.rating).isSome = true) →
    l.foldl (fun acc r => addRating acc r.rating) (some a)
      = some (a + (l.map (fun r => r.rating.getD 0)).sum) := by
  induction l with
  | nil =>
    intro a _
    simp
  | cons r l ih =>
    intro a h
    obtain ⟨v, hv⟩ := Option.isSome_iff_exists.mp (h r (List.mem_cons_self r l))
    have hstep : addRating (some a) r.rating = some (a + v) := by
      rw [hv]
      rfl
    rw [List.foldl_cons, hstep, ih (a + v) (fun x hx => h x (List.mem_cons_of_mem r hx))]
    simp [hv, add_assoc]

/-- C2 counterexample: a single review document with no rating field makes
the running sum, and hence the average, NaN (none), whereas the claim's
formula with a missing rating defaulted to 0 yields the average 0. -/
theorem averageRating_missing_rating_cex :
    averageRating [missingRatingReview] = none ∧
    specAverageRating [missingRatingReview] = 0 ∧
    averageRating [missingRatingReview] ≠ some (specAverageRating [missingRatingReview]) := by
  have h1 : averageRating [missingRatingReview] = none := rfl
  have h2 : specAverageRating [missingRatingReview] = 0 := by
    norm_num [specAverageRating, round1, missingRatingReview]
  refine ⟨h1, h2, ?_⟩
  rw [h1]
  exact fun hc => Option.noConfusion hc

/-- C2 (amended): when every fetched review document carries a rating, the
averageRating equals the sum of the ratings divided by the record count
rounded to one decimal, and 0 for the empty sequence; a record with a
missing rating instead makes the average NaN, since the raw rating field
is summed before any defaulting. -/
theorem averageRating_allPresent (l : List RawReview)
    (h : ∀ r ∈ l, (r.rating).isSome = true) :
    averageRating l = some (specAverageRating l) := by
  by_cases hl : l.length = 0
  · simp [averageRating, specAverageRating, hl]
  · have ht : totalRating l = some ((l.map (fun r => r.rating.getD 0)).sum) := by
      have hq := foldl_addRating_present l 0 h
      simpa [totalRating] using hq
    simp [averageRating, specAverageRating, hl, ht]

/-- Witness for C2: ratings 5, 4, 4 average to 4.3. -/
theorem averageRating_allPresent_witness :
    averageRating demoRatings544 = some (specAverageRating demoRatings544) ∧
    specAverageRating demoRatings544 = 43 / 10 := by
  refine ⟨averageRating_allPresent demoRatings544 (by decide), ?_⟩
  norm_num [specAverageRating, demoRatings544, ratedReview, round1, round_eq]

/-- C3 counterexample: a user document with subscriptionActive true but no
subscriptionEndDate stored is granted access by the guard, although the
Status Deriver on the same data reports neither a subscription nor a
trial, so access granted is not equivalent to the deriver's condition. -/
theorem accessGuard_ignores_endDate_cex :
    checkSubscription (some noEndDateUser) 0 = .ok true ∧
    parseTS noEndDateUser.trialEndDate = .ok none ∧
    parseTS noEndDateUser.subscriptionEndDate = .ok none ∧
    (deriveStatus none none noEndDateUser.subscriptionActive
        noEndDateUser.subscriptionPlan 0).trialInfo.hasSubscription = false ∧
    (deriveStatus none none noEndDateUser.subscriptionActive
        noEndDateUser.subscriptionPlan 0).trialInfo.isTrial = false :=
  ⟨rfl, rfl, rfl, rfl, rfl⟩

/-- C3 (amended): the access guard grants access exactly when
subscriptionActive is true, regardless of any stored subscriptionEndDate,
or when a toDate-convertible trialEndDate lies strictly in the future; and
whenever the check resolves to false for an authenticated user it
navigates to the pricing page. -/
theorem accessGuard_grant (d : UserData) (now : Int) (b : Bool)
    (h : checkSubscription (some d) now = .ok b) :
    (b = true ↔ d.subscriptionActive = true ∨
      ∃ ms, d.trialEndDate = TSField.toDateMs ms ∧ now < ms) ∧
    (b = false → guardNavigation (some d) now = some "/pricing") := by
  cases hsa : d.subscriptionActive with
  | true =>
    have hc : checkSubscription (some d) now = Except.ok true := by
      simp [checkSubscription, hsa]
    rw [hc] at h
    obtain rfl : true = b := by injection h
    refine ⟨by simp [hsa], fun hb => Bool.noConfusion hb⟩
  | false =>
    cases htf : d.trialEndDate with
    | absent =>
      have hc : checkSubscription (some d) now = Except.ok false := by
        simp [checkSubscription, hsa, htf]
      rw [hc] at h
      obtain rfl : false = b := by injection h
      refine ⟨?_, fun _ => by simp [guardNavigation, hc]⟩
      constructor
      · intro hx
        exact Bool.noConfusion hx
      · rintro (hx | ⟨ms, hms, _⟩)
        · exact Bool.noConfusion hx
        · exact TSField.noConfusion hms
    | toDateMs ms =>
      have hc : checkSubscription (some d) now = Except.ok (decide (now < ms)) := by
        simp [checkSubscription, hsa, htf]
      rw [hc] at h
      obtain rfl : decide (now < ms) = b := by injection h
      refine ⟨?_, fun hb => by simp [guardNavigation, hc, hb]⟩
      simp [hsa, htf]
    | rawSeconds s =>
      have hc : checkSubscription (some d) now = Except.error () := by
        simp [checkSubscription, hsa, htf]
      rw [hc] at h
      exact Except.noConfusion h
    | badToDate =>
      have hc : checkSubscription (some d) now = Except.error () := by
        simp [checkSubscription, hsa, htf]
      rw [hc] at h
      exact Except.noConfusion h

/-- Witness for C3: a user with an unexpired toDate-convertible trial is
granted access, and the grant matches the amended condition. -/
theorem accessGuard_grant_witness :
    ((true : Bool) = true ↔
      (UserData.mk false (.toDateMs 100) .absent "").subscriptionActive = true ∨
      ∃ ms, (UserData.mk false (.toDateMs 100) .absent "").trialEndDate =
          TSField.toDateMs ms ∧ (0 : Int) < ms) ∧
    ((true : Bool) = false →
      guardNavigation (some (UserData.mk false (.toDateMs 100) .absent "")) 0 =
        some "/pricing") :=
  accessGuard_grant (UserData.mk false (.toDateMs 100) .absent "") 0 true rfl

/-- One bump keeps the tally a five-cell array and adds one to its total
exactly when the rating passes the bucket test. -/
theorem bump_shape (a b c d e : Nat) (r : Option Int) :
    ∃ x1 x2 x3 x4 x5 : Nat,
      bump [a, b, c, d, e] r = [x1, x2, x3, x4, x5] ∧
      x1 + x2 + x3 + x4 + x5 = a + b + c + d + e + (if ratingOK r then 1 else 0) := by
  cases r with
  | none => exact ⟨a, b, c, d, e, rfl, by simp [ratingOK]⟩
  | some v =>
    by_cases h : 1 ≤ v ∧ v ≤ 5
    · obtain ⟨h1, h2⟩ := h
      interval_cases v
      · exact ⟨a, b, c, d, e + 1, rfl, by simp [ratingOK]; omega⟩
      · exact ⟨a, b, c, d + 1, e, rfl, by simp [ratingOK]; omega⟩
      · exact ⟨a, b, c + 1, d, e, rfl, by simp [ratingOK]; omega⟩
      · exact ⟨a, b + 1, c, d, e, rfl, by simp [ratingOK]; omega⟩
      · exact ⟨a + 1, b, c, d, e, rfl, by simp [ratingOK]; omega⟩
    · refine ⟨a, b, c, d, e, by simp [bump, h], ?_⟩
      simp [ratingOK, h]

/-- Folding the bump over the documents adds the count of bucket-passing
ratings to the tally total and keeps its five cells. -/
theorem foldl_bump_sum (l : List RawReview) : ∀ a b c d e : Nat,
    (l.foldl (fun acc r => bump acc r.rating) [a, b, c, d, e]).sum
        = a + b + c + d + e + l.countP inBucket ∧
    (l.foldl (fun acc r => bump acc r.rating) [a, b, c, d, e]).length = 5 := by
  induction l with
  | nil =>
    intro a b c d e
    simp
    omega
  | cons r l ih =>
    intro a b c d e
    obtain ⟨x1, x2, x3, x4, x5, hb, hs⟩ := bump_shape a b c d e r.rating
    rw [List.foldl_cons, hb]
    obtain ⟨ihs, ihl⟩ := ih x1 x2 x3 x4 x5
    refine ⟨?_, ihl⟩
    rw [ihs, hs, List.countP_cons]
    simp [inBucket]
    omega

/-- C4: the bucket tally increments index 5 - rating exactly for ratings
in [1,5]; the array keeps five cells ordered five stars down to one star,
its total equals the number of records passing the bucket test, so the
total is at most totalReviews with equality exactly when every record's
rating is a stored integer in [1,5]. -/
theorem ratingBuckets_sum (l : List RawReview) :
    (ratingCounts l).length = 5 ∧
    (ratingCounts l).sum ≤ l.length ∧
    ((ratingCounts l).sum = l.length ↔
      ∀ r ∈ l, ∃ v : Int, r.rating = some v ∧ 1 ≤ v ∧ v ≤ 5) := by
  obtain ⟨hs, hl⟩ := foldl_bump_sum l 0 0 0 0 0
  have hsum : (ratingCounts l).sum = l.countP inBucket := by
    rw [ratingCounts, hs]
    omega
  have hchar : ∀ r : RawReview, inBucket r = true ↔
      ∃ v : Int, r.rating = some v ∧ 1 ≤ v ∧ v ≤ 5 := by
    intro r
    cases hr : r.rating with
    | none => simp [inBucket, ratingOK, hr]
    | some v => simp [inBucket, ratingOK, hr]
  refine ⟨hl, ?_, ?_⟩
  · rw [hsum]
    exact List.countP_le_length inBucket
  · rw [hsum]
    rw [List.countP_eq_length]
    constructor
    · intro hall r hr
      exact (hchar r).mp (hall r hr)
    · intro hall r hr
      exact (hchar r).mpr (hall r hr)

/-- Witness for C4: for ratings 5, 4, 4 the tally is [1,2,0,0,0] and the
bucket total reaches the record count. -/
theorem ratingBuckets_sum_witness :
    ratingCounts demoRatings544 = [1, 2, 0, 0, 0] ∧
    (ratingCounts demoRatings544).sum = demoRatings544.length := by
  refine ⟨by decide, (ratingBuckets_sum demoRatings544).2.2.mpr ?_⟩
  intro r hr
  simp [demoRatings544, ratedReview, List.mem_cons] at hr
  rcases hr with rfl | rfl
  · exact ⟨5, rfl, by decide⟩
  · exact ⟨4, rfl, by decide⟩

/-- C5 counterexample: the access guard treats a missing user document as
no access and issues a pricing redirect, not a login redirect, so not
every handler redirects a missing document to the login path. -/
theorem missingDocRouting_cex :
    guardNavigation none 0 = some "/pricing" ∧
    guardNavigation none 0 ≠ some "/login" ∧
    checkUserStatus (.ok none) 0 initialSidebarState = initialSidebarState :=
  ⟨rfl, by decide, rfl⟩

/-- C5 (amended): on a missing user document, the dashboard data loader
redirects to the login page; the access guard reports no access and
redirects to the pricing page; the sidebar status check only logs,
leaving its stored state unchanged and performing no redirect. -/
theorem missingDocRouting (now : Int) (st : SidebarState) :
    dashboardLoadNavigation (.ok none) = some "/login" ∧
    guardNavigation none now = some "/pricing" ∧
    checkUserStatus (.ok none) now st = st :=
  ⟨rfl, rfl, rfl⟩

/-- C6 counterexample: the dashboard guard calls toDate unconditionally on
the trial timestamp, so a raw epoch-seconds record of the same instant
throws instead of yielding the result that the toDate-convertible
representation yields. -/
theorem tsRepr_guard_cex :
    checkSubscription (some (UserData.mk false (.rawSeconds 100) .absent "")) 0 =
      .error () ∧
    checkSubscription (some (UserData.mk false (.toDateMs 100000) .absent "")) 0 =
      .ok true :=
  ⟨rfl, rfl⟩

/-- C6 (amended): the sidebar status check accepts both timestamp
representations, and for every instant whose epoch-seconds value is
nonzero, the toDate-convertible representation and the raw seconds record
derive the same state in either timestamp field; a raw record with
seconds 0 is falsy and is treated as absent, and the dashboard guard
accepts only the toDate-convertible representation. -/
theorem tsRepr_sidebar_equiv (s : Int) (hs : s ≠ 0) (sa : Bool) (f : TSField)
    (pl : String) (now : Int) (st : SidebarState) :
    checkUserStatus (.ok (some (UserData.mk sa (.toDateMs (s * 1000)) f pl))) now st =
      checkUserStatus (.ok (some (UserData.mk sa (.rawSeconds s) f pl))) now st ∧
    checkUserStatus (.ok (some (UserData.mk sa f (.toDateMs (s * 1000)) pl))) now st =
      checkUserStatus (.ok (some (UserData.mk sa f (.rawSeconds s) pl))) now st := by
  have hp : parseTS (.rawSeconds s) = .ok (some (s * 1000)) := by
    simp [parseTS, hs]
  cases hf : parseTS f with
  | error e =>
    exact ⟨by simp [checkUserStatus, hp, hf, parseTS, hs],
      by simp [checkUserStatus, hp, hf, parseTS, hs]⟩
  | ok v =>
    exact ⟨by simp [checkUserStatus, hp, hf, parseTS, hs],
      by simp [checkUserStatus, hp, hf, parseTS, hs]⟩

/-- Witness for C6: for the instant 100 seconds after epoch, both
representations of the trial timestamp derive the same sidebar state. -/
theorem tsRepr_sidebar_equiv_witness :
    checkUserStatus (.ok (some (UserData.mk false (.toDateMs (100 * 1000)) .absent "")))
        0 initialSidebarState =
      checkUserStatus (.ok (some (UserData.mk false (.rawSeconds 100) .absent "")))
        0 initialSidebarState :=
  (tsRepr_sidebar_equiv 100 (by decide) false .absent "" 0 initialSidebarState).1

/-- C7: when the trial has ended and no subscription is active, every
navigation entry except Settings is disabled and clicking it performs no
navigation, while Settings is never disabled and each of its sub-entries
still navigates to its destination. -/
theorem navDisabled_trialEnded (ti : TrialInfo) (sub : SubscriptionInfo)
    (h1 : ti.trialEnded = true) (h2 : sub.isActive = false) :
    (∀ l ∈ businessLinks, l.name ≠ "Settings" →
      isDisabled ti sub l = true ∧ linkClickNav ti sub l = none) ∧
    (∀ l ∈ businessLinks, l.name = "Settings" →
      isDisabled ti sub l = false ∧ ∀ s ∈ l.subLinks, subLinkClickNav s = some s.href) := by
  constructor
  · intro l _ hname
    have hd : isDisabled ti sub l = true := by
      simp [isDisabled, h1, h2, hname]
    exact ⟨hd, by simp [linkClickNav, hd]⟩
  · intro l _ hname
    have hd : isDisabled ti sub l = false := by
      simp [isDisabled, hname]
    exact ⟨hd, fun s _ => rfl⟩

/-- Witness for C7: with the trial ended and no subscription, the
Dashboard entry is disabled and clicking it does not navigate. -/
theorem navDisabled_trialEnded_witness :
    isDisabled ⟨0, false, true, false⟩ emptySubscription
      ⟨"Dashboard", "/components/business/dashboard", []⟩ = true ∧
    linkClickNav ⟨0, false, true, false⟩ emptySubscription
      ⟨"Dashboard", "/components/business/dashboard", []⟩ = none :=
  (navDisabled_trialEnded ⟨0, false, true, false⟩ emptySubscription rfl rfl).1
    ⟨"Dashboard", "/components/business/dashboard", []⟩ (by decide) (by decide)

/-- C8: the displayed bucket percentage is Math.round of
count / totalReviews * 100 whenever totalReviews is positive, and every
bucket shows 0 when totalReviews is 0, so the division is always guarded. -/
theorem calculatePercentage_safe (count total : Nat) :
    (0 < total →
      calculatePercentage count total = round (((count : ℚ) / (total : ℚ)) * 100)) ∧
    calculatePercentage count 0 = 0 ∧
    calculatePercentage 0 0 = 0 := by
  refine ⟨fun h => if_pos h, rfl, rfl⟩

/-- Witness for C8: two of three reviews round to the formula value, and
the empty total yields 0. -/
theorem calculatePercentage_safe_witness :
    calculatePercentage 2 3 = round ((((2 : Nat) : ℚ) / ((3 : Nat) : ℚ)) * 100) ∧
    calculatePercentage 0 0 = 0 :=
  ⟨(calculatePercentage_safe 2 3).1 (by decide), (calculatePercentage_safe 0 0).2.2⟩

/-- C9: the review list handed to the renderer is a permutation of the
normalized reviews sorted so that creation seconds never increase, with
ties left unspecified; the timestamps 100, 300, 200 come out 300, 200,
100. -/
theorem sortReviews_recency (l : List Review) :
    (sortReviews l).Perm l ∧
    List.Sorted byRecency (sortReviews l) ∧
    (sortReviews [reviewAt 100, reviewAt 300, reviewAt 200]).map
        Review.createdAtSeconds = [300, 200, 100] :=
  ⟨List.perm_insertionSort byRecency l, List.sorted_insertionSort byRecency l, by decide⟩

/-- C10: a status check whose fetch rejects, or whose timestamp decoding
throws, leaves the sidebar's stored derived state exactly as it was; the
error is only logged and no reset happens. -/
theorem checkUserStatus_error_preserves (now : Int) (st : SidebarState) :
    checkUserStatus (.error ()) now st = st ∧
    ∀ d : UserData,
      (parseTS d.trialEndDate = .error () ∨ parseTS d.subscriptionEndDate = .error ()) →
      checkUserStatus (.ok (some d)) now st = st := by
  refine ⟨rfl, fun d hd => ?_⟩
  cases ht : parseTS d.trialEndDate with
  | error e =>
    cases hs : parseTS d.subscriptionEndDate with
    | error e2 => simp [checkUserStatus, ht, hs]
    | ok v => simp [checkUserStatus, ht, hs]
  | ok v =>
    cases hs : parseTS d.subscriptionEndDate with
    | error e2 => simp [checkUserStatus, ht, hs]
    | ok v2 =>
      rcases hd with h | h
      · rw [ht] at h
        exact Except.noConfusion h
      · rw [hs] at h
        exact Except.noConfusion h

/-- Witness for C10: a trial timestamp whose toDate member is not callable
throws during decoding and the sidebar state is untouched. -/
theorem checkUserStatus_error_preserves_witness :
    checkUserStatus (.ok (some (UserData.mk false .badToDate .absent ""))) 0
        initialSidebarState = initialSidebarState :=
  (checkUserStatus_error_preserves 0 initialSidebarState).2
    (UserData.mk false .badToDate .absent "") (Or.inl rfl)
